import Mathlib

/-!
Verification of the benchmarking engine in src/client.go (a Fabric gateway
load-generation client). The definitions below are a shallow embedding of the
benchmark variants in that file:

- createAssetBench (lines 362-466): indexed-slice collector, one
  SubmitTransaction call per task, float64 mean and standard deviation.
- createAssetEndorse (lines 468-544): sequential loop with per-phase timing,
  totals divided by the success count at the end.
- createAssetBenchDetailed (lines 546-651): concurrent tasks, per-phase
  channels, unsynchronized success counter, CSV streaming output.
- createAssetBenchEnd (lines 653-803): concurrent tasks, per-phase channels,
  mutex-protected success counter, aggregate report with a zero-success guard.

Durations are modeled in nanoseconds as Nat (Go time.Duration is an int64
nanosecond count; every value that appears here is a nonnegative elapsed
time, and the sums involved stay far below 2^63, so overflow is immaterial).
The external gateway calls (NewProposal, Endorse, Submit, Status) are modeled
by a per-task behavior record saying whether each call succeeds and how long
each measured bracket takes.
-/

/-- The four pipeline phases of one task, in source order: building the
proposal, endorsement, submission to ordering, and commit status. -/
inductive Phase where
  | Propose
  | Endorse
  | Submit
  | Status
deriving DecidableEq, Repr

/-- Position of a phase in the strict source order. -/
def Phase.idx : Phase → Nat
  | Phase.Propose => 0
  | Phase.Endorse => 1
  | Phase.Submit => 2
  | Phase.Status => 3

/-- Behavior of the external gateway for one task: whether each of the four
calls succeeds, the commit code reported by Status, and the elapsed time of
each measured bracket. endorseTime is the bracket from endorseStartTime to
endorseEndTime, which in the source surrounds both NewProposal and Endorse
(lines 688-700); orderingTime surrounds Submit (lines 704-711); commitTime
surrounds Status (lines 715-722). -/
structure TaskBehavior where
  proposeOk : Bool
  endorseOk : Bool
  endorseTime : Nat
  submitOk : Bool
  orderingTime : Nat
  statusErr : Bool
  statusSuccessful : Bool
  commitTime : Nat
deriving DecidableEq, Repr

/-- Observable outcome of one task goroutine of createAssetBenchEnd (lines
680-733) and, identically, of createAssetBenchDetailed (lines 573-641):
which phases were invoked, which duration was sent on each channel, whether
the success counter was incremented, and which phase the failing branch
belongs to (in the source the failing phase is identified by the printed
message of the branch that returns). -/
structure TaskOutcome where
  invoked : List Phase
  endorseSent : Option Nat
  orderingSent : Option Nat
  commitSent : Option Nat
  latencySent : Option Nat
  successIncr : Bool
  failedPhase : Option Phase
deriving DecidableEq, Repr

/-- The task goroutine body of createAssetBenchEnd, lines 680-733 (the body of
createAssetBenchDetailed, lines 573-641, is the same control flow). On a
NewProposal error the goroutine returns with nothing recorded; on an Endorse
error it returns before the endorse duration is sent; after Endorse succeeds
the endorse duration is sent, and similarly for Submit and Status; the commit
duration is sent, the success counter incremented and the latency
(endorseTime + orderingTime + commitTime, line 731) sent only when Status
returns without error and with a successful commit code (line 717). -/
def runTaskEnd (b : TaskBehavior) : TaskOutcome :=
  if !b.proposeOk then
    { invoked := [Phase.Propose], endorseSent := none, orderingSent := none,
      commitSent := none, latencySent := none, successIncr := false,
      failedPhase := some Phase.Propose }
  else if !b.endorseOk then
    { invoked := [Phase.Propose, Phase.Endorse], endorseSent := none,
      orderingSent := none, commitSent := none, latencySent := none,
      successIncr := false, failedPhase := some Phase.Endorse }
  else if !b.submitOk then
    { invoked := [Phase.Propose, Phase.Endorse, Phase.Submit],
      endorseSent := some b.endorseTime, orderingSent := none,
      commitSent := none, latencySent := none, successIncr := false,
      failedPhase := some Phase.Submit }
  else if b.statusErr || !b.statusSuccessful then
    { invoked := [Phase.Propose, Phase.Endorse, Phase.Submit, Phase.Status],
      endorseSent := some b.endorseTime, orderingSent := some b.orderingTime,
      commitSent := none, latencySent := none, successIncr := false,
      failedPhase := some Phase.Status }
  else
    { invoked := [Phase.Propose, Phase.Endorse, Phase.Submit, Phase.Status],
      endorseSent := some b.endorseTime, orderingSent := some b.orderingTime,
      commitSent := some b.commitTime,
      latencySent := some (b.endorseTime + b.orderingTime + b.commitTime),
      successIncr := true, failedPhase := none }

/-- A task succeeds when every call succeeds and Status reports a successful
commit code (the condition of line 717 negated). -/
def taskSuccess (b : TaskBehavior) : Bool :=
  b.proposeOk && b.endorseOk && b.submitOk && !b.statusErr && b.statusSuccessful

/-- The task whose endorse bracket recorded a duration: NewProposal and
Endorse both succeeded (the send at line 701 is reached). -/
def endorseRecorded (b : TaskBehavior) : Bool :=
  b.proposeOk && b.endorseOk

/-- The task whose ordering bracket recorded a duration: NewProposal, Endorse
and Submit all succeeded (the send at line 712 is reached), regardless of the
later outcome of Status. -/
def orderingRecorded (b : TaskBehavior) : Bool :=
  b.proposeOk && b.endorseOk && b.submitOk

/-- The task whose commit bracket recorded a duration: the send at line 723
is reached only when every call succeeded and the commit code is successful,
the same condition as full task success. -/
def commitRecorded (b : TaskBehavior) : Bool :=
  b.proposeOk && b.endorseOk && b.submitOk && !b.statusErr && b.statusSuccessful

/-- The duration the task recorded for a phase, as delivered on the phase
channels. No separate duration is ever recorded for Propose: the source has
no propose channel, the proposal time being inside the endorse bracket. -/
def recordedAt (o : TaskOutcome) : Phase → Option Nat
  | Phase.Propose => none
  | Phase.Endorse => o.endorseSent
  | Phase.Submit => o.orderingSent
  | Phase.Status => o.commitSent

/-- The duration a phase bracket would measure for a task, from the behavior
record (none for Propose, which has no bracket of its own). -/
def measuredDuration (b : TaskBehavior) : Phase → Option Nat
  | Phase.Propose => none
  | Phase.Endorse => some b.endorseTime
  | Phase.Submit => some b.orderingTime
  | Phase.Status => some b.commitTime

/-- Number of tasks whose goroutine incremented the success counter: the
value of successfulTransactions after the join barrier (line 736). -/
def countSuccess (outs : List TaskOutcome) : Nat :=
  (outs.filter TaskOutcome.successIncr).length

/-- Contents of one duration channel after the join barrier: one entry per
task whose goroutine reached the send for that channel. -/
def chanContents (f : TaskOutcome → Option Nat) (outs : List TaskOutcome) :
    List Nat :=
  outs.filterMap f

/-- Drain loop over one channel (lines 756-767): the total of the collected
durations. -/
def chanTotal (f : TaskOutcome → Option Nat) (outs : List TaskOutcome) : Nat :=
  (chanContents f outs).sum

/-- The four averages printed by createAssetBenchEnd (lines 774-777). -/
structure EndMetrics where
  averageLatency : Nat
  averageEndorseTime : Nat
  averageOrderingTime : Nat
  averageCommitTime : Nat
deriving DecidableEq, Repr

/-- Aggregation step of createAssetBenchEnd, lines 744-777: drain the
channels into totals; if successfulTransactions is zero, return the explicit
no-successful-transactions report (the early return at lines 769-772, modeled
as none); otherwise divide every total by successfulTransactions
(time.Duration division truncates, as Nat division does here). -/
def aggregateEnd (outs : List TaskOutcome) : Option EndMetrics :=
  if countSuccess outs = 0 then none
  else
    some { averageLatency := chanTotal TaskOutcome.latencySent outs / countSuccess outs,
           averageEndorseTime := chanTotal TaskOutcome.endorseSent outs / countSuccess outs,
           averageOrderingTime := chanTotal TaskOutcome.orderingSent outs / countSuccess outs,
           averageCommitTime := chanTotal TaskOutcome.commitSent outs / countSuccess outs }

/-- Comparison definition following the words of the spec, not the source:
the per-phase mean for the endorse phase divided by the count of tasks that
recorded an endorse duration. To be compared with the averageEndorseTime
computed by aggregateEnd. -/
def specEndorsePhaseMean (outs : List TaskOutcome) : Nat :=
  chanTotal TaskOutcome.endorseSent outs /
    (outs.filter (fun o => o.endorseSent.isSome)).length

/-- Wall-clock span of a fully successful task from its dispatch to its
completion: the pre-task scheduling sleep, the three measured brackets, and
the idle gaps between consecutive brackets. Used to compare the latency the
source reports against the true dispatch-to-completion span. -/
def wallClockSpan (b : TaskBehavior) (sleep gap1 gap2 : Nat) : Nat :=
  sleep + b.endorseTime + gap1 + b.orderingTime + gap2 + b.commitTime

/-- A value of a Go float64 computation: finite (modeled exactly as a
rational, abstracting float64 rounding, which no claim here depends on), an
infinity, or NaN. -/
inductive GoFloat where
  | nan
  | inf
  | val (q : ℚ)
deriving DecidableEq, Repr

/-- IEEE float64 division as performed by Go: a zero divisor produces NaN
when the dividend is zero and an infinity otherwise; a nonzero divisor gives
the exact quotient. -/
def goDivF (x y : ℚ) : GoFloat :=
  if y = 0 then (if x = 0 then GoFloat.nan else GoFloat.inf)
  else GoFloat.val (x / y)

/-- Behavior of the single SubmitTransaction call of one createAssetBench
task (lines 401-403): whether it returns an error, and the elapsed time of
the call. -/
structure BenchTxBehavior where
  ok : Bool
  latencyNs : Nat
deriving DecidableEq, Repr

/-- The txResult record of createAssetBench (lines 383-390), without the two
timestamps, which no claim concerns: the goroutine writes index, latency and
the success flag to slot i on both the error branch (line 406) and the
success branch (line 410). -/
structure txResult where
  index : Nat
  latencyNs : Nat
  success : Bool
deriving DecidableEq, Repr

/-- The goroutine body of createAssetBench, lines 395-411: slot i receives
the measured latency and the success flag, on failure as on success. -/
def runBenchTx (i : Nat) (b : BenchTxBehavior) : txResult :=
  { index := i, latencyNs := b.latencyNs, success := b.ok }

/-- The results slice of createAssetBench after the join barrier (line 414):
task i wrote exactly slot i. -/
def benchResults (n : Nat) (behav : Nat → BenchTxBehavior) : List txResult :=
  (List.range n).map (fun i => runBenchTx i (behav i))

/-- Line 431: latencyMs is float64 of Latency.Milliseconds, a truncating
integer division of the nanosecond count by one million. -/
def latencyMsOf (r : txResult) : ℚ :=
  ((r.latencyNs / 1000000 : Nat) : ℚ)

/-- The latenciesMs slice built by the loop at lines 430-445: the millisecond
latency of each successful result, in order. -/
def latenciesMs (rs : List txResult) : List ℚ :=
  rs.filterMap (fun r => if r.success then some (latencyMsOf r) else none)

/-- The successfulTransactions counter of createAssetBench (line 436). -/
def benchSuccessCount (rs : List txResult) : Nat :=
  (rs.filter txResult.success).length

/-- The totalLatency accumulator of createAssetBench (line 437). -/
def totalLatencyMs (rs : List txResult) : ℚ :=
  (latenciesMs rs).sum

/-- Line 450 of createAssetBench: meanLatency is totalLatency divided by
float64 of successfulTransactions, with no zero-success guard. -/
def meanLatency (rs : List txResult) : GoFloat :=
  goDivF (totalLatencyMs rs) (benchSuccessCount rs)

/-- The sum of squared deviations accumulated at lines 451-453 for a given
mean. -/
def sqDevSum (rs : List txResult) (m : ℚ) : ℚ :=
  ((latenciesMs rs).map (fun l => (l - m) ^ 2)).sum

/-- Lines 451-454 of createAssetBench before the square root: the sum of
squared deviations divided by float64 of successfulTransactions. The source
then applies math.Sqrt, which maps NaN to NaN and a finite nonnegative value
to a finite value, so finiteness is decided here. When the mean is not
finite, the latenciesMs slice is empty (zero successes), the accumulator
stays at zero, and the division is zero by zero: NaN. -/
def benchStdDevSq (rs : List txResult) : GoFloat :=
  match meanLatency rs with
  | GoFloat.val m => goDivF (sqDevSum rs (m)) (benchSuccessCount rs)
  | _ => GoFloat.nan

/-- The interval computed at line 377 and line 662:
time.Second / time.Duration(tps), a truncating int64 division of one second
in nanoseconds by the target rate. -/
def intervalNs (tps : Nat) : Nat :=
  1000000000 / tps

/-- The scheduling sleep of task i (line 398 and line 683):
time.Duration(i) * interval nanoseconds, the release offset of the task
relative to batch start. -/
def sleepOffsetNs (tps i : Nat) : Nat :=
  i * intervalNs tps

/-- Result of invoking a benchmark entry point: either the configuration
error early return, or a completed run carrying what it produced. -/
inductive RunResult (α : Type) where
  | configError : RunResult α
  | ran : α → RunResult α
deriving DecidableEq, Repr

/-- Entry of createAssetBench, lines 362-373 and 392-414: a nonpositive tps
is rejected before any task starts (lines 363-366, modeled as configError);
a nonpositive numAssets is coerced to 1 (lines 367-369); the methods slice
has five elements so the check at line 370 passes; otherwise the results
slice is produced as by the goroutines. -/
def createAssetBench (tps numAssets : Int) (behav : Nat → BenchTxBehavior) :
    RunResult (List txResult) :=
  if tps ≤ 0 then RunResult.configError
  else RunResult.ran (benchResults (if numAssets ≤ 0 then 1 else numAssets.toNat) behav)

/-- The outcome list of a createAssetBenchEnd run with n tasks. -/
def benchEndOutcomes (n : Nat) (behav : Nat → TaskBehavior) : List TaskOutcome :=
  (List.range n).map (fun i => runTaskEnd (behav i))

/-- Entry of createAssetBenchEnd, lines 653-660 with the run and aggregation
that follow: a nonpositive tps is rejected before any task starts (lines
654-657); a nonpositive numAssets is coerced to 1 (lines 658-660); otherwise
the tasks run and the aggregation step is applied to the collected
outcomes. -/
def createAssetBenchEnd (tps numAssets : Int) (behav : Nat → TaskBehavior) :
    RunResult (List TaskOutcome × Option EndMetrics) :=
  if tps ≤ 0 then RunResult.configError
  else
    RunResult.ran
      ((benchEndOutcomes (if numAssets ≤ 0 then 1 else numAssets.toNat) behav),
       aggregateEnd (benchEndOutcomes (if numAssets ≤ 0 then 1 else numAssets.toNat) behav))

/-- One atomic step of a goroutine acting on the shared success counter
region: taking the mutex, releasing it, or incrementing the counter. -/
inductive SyncAction where
  | lock
  | unlock
  | incr
deriving DecidableEq, Repr

/-- The counter update region of the createAssetBenchEnd goroutine, lines
725-728: mu.Lock, successfulTransactions increment, mu.Unlock. -/
def benchEndCounterUpdate : List SyncAction :=
  [SyncAction.lock, SyncAction.incr, SyncAction.unlock]

/-- The counter update region of the createAssetBenchDetailed goroutine,
lines 618-619: a bare successfulTransactions increment, with no mutex
anywhere in that function. -/
def benchDetailedCounterUpdate : List SyncAction :=
  [SyncAction.incr]

/-- Whether every increment in an action list happens while the mutex is
held, tracking the lock depth. -/
def guardedAux : Nat → List SyncAction → Bool
  | _, [] => true
  | d, SyncAction.lock :: rest => guardedAux (d + 1) rest
  | d, SyncAction.unlock :: rest => guardedAux (d - 1) rest
  | d, SyncAction.incr :: rest => decide (0 < d) && guardedAux d rest

/-- Every increment of the shared counter in the region is performed under
mutual exclusion. -/
def incrementsGuarded (l : List SyncAction) : Bool :=
  guardedAux 0 l

/-- The running totals of createAssetEndorse (lines 473-474). -/
structure EndorseTotals where
  totalEndorseTime : Nat
  totalOrderingTime : Nat
  totalCommitTime : Nat
  successfulTransactions : Nat
deriving DecidableEq, Repr

/-- The loop body accumulation of createAssetEndorse for the tasks whose
NewProposal succeeded: each iteration adds the endorse duration once Endorse
succeeds (line 496), the ordering duration once Submit succeeds (line 507),
the commit duration and the success increment once Status succeeds with a
successful code (lines 518, 526) - exactly the durations runTaskEnd records,
since the iteration has the same control flow with continue in place of
return. A NewProposal error makes createAssetEndorse panic (line 485),
modeled as none for the whole loop. -/
def endorseLoopGo : List TaskBehavior → EndorseTotals → Option EndorseTotals
  | [], acc => some acc
  | b :: rest, acc =>
    if b.proposeOk then
      endorseLoopGo rest
        { totalEndorseTime := acc.totalEndorseTime + (runTaskEnd b).endorseSent.getD 0,
          totalOrderingTime := acc.totalOrderingTime + (runTaskEnd b).orderingSent.getD 0,
          totalCommitTime := acc.totalCommitTime + (runTaskEnd b).commitSent.getD 0,
          successfulTransactions := acc.successfulTransactions +
            (if (runTaskEnd b).successIncr then 1 else 0) }
    else none

/-- The whole loop of createAssetEndorse (lines 478-527), starting from zero
totals. -/
def endorseLoop (bs : List TaskBehavior) : Option EndorseTotals :=
  endorseLoopGo bs { totalEndorseTime := 0, totalOrderingTime := 0,
                     totalCommitTime := 0, successfulTransactions := 0 }

/-- The final average computations of createAssetEndorse, lines 529-534:
each accumulated total, and the accumulated elapsed time, is divided by
time.Duration of successfulTransactions with no zero-success guard. In Go,
integer division of time.Duration by zero panics at run time, so the
function does not complete normally when the success count is zero; the
panic is modeled as none. -/
def endorseFinalCalcs (totalEndorse totalOrdering totalCommit totalElapsed succ : Nat) :
    Option (Nat × Nat × Nat × Nat) :=
  if succ = 0 then none
  else some (totalEndorse / succ, totalOrdering / succ, totalCommit / succ,
             totalElapsed / succ)

/-- A task behavior where every call succeeds. -/
def bAllOk : TaskBehavior :=
  { proposeOk := true, endorseOk := true, endorseTime := 10, submitOk := true,
    orderingTime := 20, statusErr := false, statusSuccessful := true,
    commitTime := 30 }

/-- A task behavior failing at the Endorse call. -/
def bFailEndorse : TaskBehavior :=
  { proposeOk := true, endorseOk := false, endorseTime := 10, submitOk := true,
    orderingTime := 20, statusErr := false, statusSuccessful := true,
    commitTime := 30 }

/-- A task behavior failing at the Submit call, after a successful endorse
bracket. -/
def bFailSubmit : TaskBehavior :=
  { proposeOk := true, endorseOk := true, endorseTime := 10, submitOk := false,
    orderingTime := 20, statusErr := false, statusSuccessful := true,
    commitTime := 30 }

/-- A task behavior whose Status call returns without transport error but
reports a non-successful commit code. -/
def bStatusBadCode : TaskBehavior :=
  { proposeOk := true, endorseOk := true, endorseTime := 10, submitOk := true,
    orderingTime := 20, statusErr := false, statusSuccessful := false,
    commitTime := 30 }

/-- A createAssetBench run consisting of one failed transaction. -/
def failedOnlyRun : List txResult :=
  [{ index := 0, latencyNs := 5000000, success := false }]

/-! ## Per-task lemmas about the goroutine body -/

/-- The success counter is incremented exactly when every call succeeds and
the commit code is successful. -/
theorem runTaskEnd_successIncr (b : TaskBehavior) :
    (runTaskEnd b).successIncr = taskSuccess b := by
  obtain ⟨p, e, et, s, ot, se, ss, ct⟩ := b
  cases p <;> cases e <;> cases s <;> cases se <;> cases ss <;>
    simp [runTaskEnd, taskSuccess]

/-- The latency channel receives the sum of the three phase durations exactly
on full success. -/
theorem runTaskEnd_latencySent (b : TaskBehavior) :
    (runTaskEnd b).latencySent =
      if taskSuccess b then some (b.endorseTime + b.orderingTime + b.commitTime)
      else none := by
  obtain ⟨p, e, et, s, ot, se, ss, ct⟩ := b
  cases p <;> cases e <;> cases s <;> cases se <;> cases ss <;>
    simp [runTaskEnd, taskSuccess]

/-- The endorse channel receives the endorse duration exactly when the
endorse bracket completed, regardless of later failures. -/
theorem runTaskEnd_endorseSent (b : TaskBehavior) :
    (runTaskEnd b).endorseSent =
      if endorseRecorded b then some b.endorseTime else none := by
  obtain ⟨p, e, et, s, ot, se, ss, ct⟩ := b
  cases p <;> cases e <;> cases s <;> cases se <;> cases ss <;>
    simp [runTaskEnd, endorseRecorded]

/-- The ordering channel receives the ordering duration exactly when the
ordering bracket completed, regardless of the outcome of Status. -/
theorem runTaskEnd_orderingSent (b : TaskBehavior) :
    (runTaskEnd b).orderingSent =
      if orderingRecorded b then some b.orderingTime else none := by
  obtain ⟨p, e, et, s, ot, se, ss, ct⟩ := b
  cases p <;> cases e <;> cases s <;> cases se <;> cases ss <;>
    simp [runTaskEnd, orderingRecorded]

/-- The commit channel receives the commit duration exactly on full task
success. -/
theorem runTaskEnd_commitSent (b : TaskBehavior) :
    (runTaskEnd b).commitSent =
      if commitRecorded b then some b.commitTime else none := by
  obtain ⟨p, e, et, s, ot, se, ss, ct⟩ := b
  cases p <;> cases e <;> cases s <;> cases se <;> cases ss <;>
    simp [runTaskEnd, commitRecorded]

/-! ## Claim C5: failure isolation between phases -/

/-- C5: for every task and phase P in the order Propose, Endorse, Submit,
Status, if the task fails at P then no later phase is invoked, no duration is
recorded for any phase at or after P, and the durations recorded for phases
strictly before P are the measured ones, unchanged. -/
theorem C5_phase_failure_isolation (b : TaskBehavior) (P : Phase)
    (h : (runTaskEnd b).failedPhase = some P) :
    (∀ q : Phase, P.idx < q.idx → q ∉ (runTaskEnd b).invoked) ∧
    (∀ q : Phase, P.idx ≤ q.idx → recordedAt (runTaskEnd b) q = none) ∧
    (∀ q : Phase, q.idx < P.idx → recordedAt (runTaskEnd b) q = measuredDuration b q) := by
  obtain ⟨p, e, et, s, ot, se, ss, ct⟩ := b
  cases p <;> cases e <;> cases s <;> cases se <;> cases ss <;>
    simp only [runTaskEnd] at h ⊢ <;>
    simp at h <;>
    subst h <;>
    refine ⟨?_, ?_, ?_⟩ <;> intro q hq <;> cases q <;>
      simp_all [recordedAt, measuredDuration, Phase.idx]

/-- C5 witness: a task failing at the Submit phase keeps its endorse duration
and records nothing at or after Submit. -/
theorem C5_phase_failure_isolation_witness :
    (runTaskEnd bFailSubmit).failedPhase = some Phase.Submit ∧
    ((∀ q : Phase, Phase.idx Phase.Submit < q.idx → q ∉ (runTaskEnd bFailSubmit).invoked) ∧
     (∀ q : Phase, Phase.idx Phase.Submit ≤ q.idx → recordedAt (runTaskEnd bFailSubmit) q = none) ∧
     (∀ q : Phase, q.idx < Phase.idx Phase.Submit →
       recordedAt (runTaskEnd bFailSubmit) q = measuredDuration bFailSubmit q)) :=
  ⟨by decide, C5_phase_failure_isolation bFailSubmit Phase.Submit (by decide)⟩

/-! ## Claim C6: a non-successful commit code is a Status-phase failure -/

/-- C6: a task whose Status call completes without transport error but
reports a non-successful commit code does not increment the success counter,
records no commit duration, and fails at the Status phase. -/
theorem C6_bad_commit_code_is_status_failure (b : TaskBehavior)
    (hp : b.proposeOk = true) (he : b.endorseOk = true) (hs : b.submitOk = true)
    (hte : b.statusErr = false) (hcc : b.statusSuccessful = false) :
    (runTaskEnd b).successIncr = false ∧
    (runTaskEnd b).commitSent = none ∧
    (runTaskEnd b).failedPhase = some Phase.Status := by
  obtain ⟨p, e, et, s, ot, se, ss, ct⟩ := b
  simp_all [runTaskEnd]

/-- C6 witness at a concrete behavior with a bad commit code. -/
theorem C6_bad_commit_code_is_status_failure_witness :
    (runTaskEnd bStatusBadCode).successIncr = false ∧
    (runTaskEnd bStatusBadCode).commitSent = none ∧
    (runTaskEnd bStatusBadCode).failedPhase = some Phase.Status :=
  C6_bad_commit_code_is_status_failure bStatusBadCode rfl rfl rfl rfl rfl

/-! ## Claim C7: latency is the sum of the three phase durations -/

/-- C7: the latency reported for a fully successful task is the sum of the
three measured phase durations, and the wall-clock span from dispatch to
completion exceeds it by exactly the scheduling sleep plus the idle gaps
between brackets, so the reported latency excludes those. -/
theorem C7_latency_is_phase_sum (b : TaskBehavior) (h : taskSuccess b = true) :
    (runTaskEnd b).latencySent = some (b.endorseTime + b.orderingTime + b.commitTime) ∧
    (∀ sleep gap1 gap2 : Nat,
      wallClockSpan b sleep gap1 gap2 =
        (b.endorseTime + b.orderingTime + b.commitTime) + (sleep + gap1 + gap2)) := by
  constructor
  · rw [runTaskEnd_latencySent, h, if_pos rfl]
  · intro sleep gap1 gap2
    simp [wallClockSpan]
    omega

/-- C7 witness at a concrete fully successful behavior. -/
theorem C7_latency_is_phase_sum_witness :
    (runTaskEnd bAllOk).latencySent = some (bAllOk.endorseTime + bAllOk.orderingTime + bAllOk.commitTime) ∧
    (∀ sleep gap1 gap2 : Nat,
      wallClockSpan bAllOk sleep gap1 gap2 =
        (bAllOk.endorseTime + bAllOk.orderingTime + bAllOk.commitTime) + (sleep + gap1 + gap2)) :=
  C7_latency_is_phase_sum bAllOk rfl

/-! ## Claim C3: release offsets -/

/-- C3 counterexample: at targetRate 3, the release offset of task 1 is
1 * (10^9 / 3) = 333333333 nanoseconds by the truncating integer division of
line 377 and line 662, which is not one third of a second, so the offset
does not equal i / targetRate exactly. -/
theorem C3_offset_counterexample :
    sleepOffsetNs 3 1 = 333333333 ∧
    ((sleepOffsetNs 3 1 : ℚ) / 1000000000 ≠ (1 : ℚ) / 3) := by
  constructor
  · rfl
  · norm_num [sleepOffsetNs, intervalNs]

/-- C3 amended: for targetRate > 0 the release offset of task i is
i * (10^9 / targetRate truncated) nanoseconds: consecutive offsets differ by
exactly that truncated interval, the sequence is non-decreasing (strictly
increasing when targetRate is at most 10^9), and the offset equals
i / targetRate seconds exactly when targetRate divides 10^9. -/
theorem C3_offsets_truncated_spacing (tps i : Nat) (h : 0 < tps) :
    sleepOffsetNs tps (i + 1) = sleepOffsetNs tps i + intervalNs tps ∧
    sleepOffsetNs tps i ≤ sleepOffsetNs tps (i + 1) ∧
    (tps ≤ 1000000000 → sleepOffsetNs tps i < sleepOffsetNs tps (i + 1)) ∧
    (tps ∣ 1000000000 →
      (sleepOffsetNs tps i : ℚ) / 1000000000 = (i : ℚ) / (tps : ℚ)) := by
  refine ⟨?_, ?_, ?_, ?_⟩
  · simp [sleepOffsetNs, Nat.succ_mul]
  · simp [sleepOffsetNs, Nat.succ_mul]
  · intro hle
    have h1 : 1 ≤ intervalNs tps := (Nat.one_le_div_iff h).mpr hle
    simp only [sleepOffsetNs, Nat.succ_mul]
    omega
  · intro hdvd
    have hd : intervalNs tps * tps = 1000000000 := Nat.div_mul_cancel hdvd
    have hdq : (intervalNs tps : ℚ) * (tps : ℚ) = 1000000000 := by exact_mod_cast hd
    have htq : (tps : ℚ) ≠ 0 := Nat.cast_ne_zero.mpr h.ne'
    have hiq : (intervalNs tps : ℚ) ≠ 0 := by
      intro h0
      rw [h0, zero_mul] at hdq
      norm_num at hdq
    rw [sleepOffsetNs]
    push_cast
    rw [← hdq]
    field_simp
    ring

/-- C3 witness: the amended offset properties at targetRate 2 and task 3. -/
theorem C3_offsets_truncated_spacing_witness :
    sleepOffsetNs 2 (3 + 1) = sleepOffsetNs 2 3 + intervalNs 2 ∧
    sleepOffsetNs 2 3 ≤ sleepOffsetNs 2 (3 + 1) ∧
    (2 ≤ 1000000000 → sleepOffsetNs 2 3 < sleepOffsetNs 2 (3 + 1)) ∧
    (2 ∣ 1000000000 →
      (sleepOffsetNs 2 3 : ℚ) / 1000000000 = (3 : ℚ) / (2 : ℚ)) := by
  have h := C3_offsets_truncated_spacing 2 3 (by decide)
  exact_mod_cast h

/-! ## Claim C4: nonpositive target rate aborts before dispatch -/

/-- C4: a run invoked with targetRate at most zero reports the configuration
error before dispatch, in createAssetBench as in createAssetBenchEnd: no task
is launched, so the run carries no result collection at all. -/
theorem C4_config_error_before_dispatch (tps numAssets : Int)
    (behavB : Nat → BenchTxBehavior) (behavE : Nat → TaskBehavior)
    (h : tps ≤ 0) :
    createAssetBench tps numAssets behavB = RunResult.configError ∧
    createAssetBenchEnd tps numAssets behavE = RunResult.configError := by
  constructor <;> simp [createAssetBench, createAssetBenchEnd, h]

/-- C4 witness: targetRate zero with five requested tasks. -/
theorem C4_config_error_before_dispatch_witness :
    createAssetBench 0 5 (fun _ => { ok := true, latencyNs := 1000000 }) = RunResult.configError ∧
    createAssetBenchEnd 0 5 (fun _ => bAllOk) = RunResult.configError :=
  C4_config_error_before_dispatch 0 5 _ _ (by decide)

/-! ## Claim C9: synchronization of the shared success counter -/

/-- C9 counterexample: in the createAssetBenchDetailed goroutine the shared
success counter is incremented with no mutex held, so it is not the case that
every increment of the shared success counter is performed under mutual
exclusion. -/
theorem C9_unsynchronized_increment_counterexample :
    incrementsGuarded benchDetailedCounterUpdate = false := by decide

/-- C9 amended: in createAssetBenchEnd the increment of the shared success
counter is performed under the mutex; in createAssetBenchDetailed the shared
counter is incremented with no synchronization at all. -/
theorem C9_counter_guarding_per_variant :
    incrementsGuarded benchEndCounterUpdate = true ∧
    incrementsGuarded benchDetailedCounterUpdate = false := by decide

/-! ## Lemmas about collection and aggregation -/

/-- The latenciesMs slice of createAssetBench has one entry per successful
result. -/
theorem latenciesMs_length (rs : List txResult) :
    (latenciesMs rs).length = benchSuccessCount rs := by
  induction rs with
  | nil => rfl
  | cons r t ih =>
    simp only [latenciesMs, benchSuccessCount] at ih ⊢
    cases hr : r.success <;> simp [List.filterMap_cons, List.filter_cons, hr, ih]

/-- The endorse channel total over a batch of behaviors is the sum of the
endorse durations of every task whose endorse bracket completed, including
tasks that failed at a later phase. -/
theorem chanTotal_endorse_map (bs : List TaskBehavior) :
    chanTotal TaskOutcome.endorseSent (bs.map runTaskEnd) =
      ((bs.filter endorseRecorded).map TaskBehavior.endorseTime).sum := by
  induction bs with
  | nil => rfl
  | cons b t ih =>
    simp only [chanTotal, chanContents, List.filterMap_map, Function.comp] at ih ⊢
    cases hb : endorseRecorded b <;>
      simp [List.filterMap_cons, List.filter_cons, runTaskEnd_endorseSent, hb, ih]

/-- The ordering channel total over a batch of behaviors is the sum of the
ordering durations of every task whose ordering bracket completed, including
tasks that failed at the Status phase. -/
theorem chanTotal_ordering_map (bs : List TaskBehavior) :
    chanTotal TaskOutcome.orderingSent (bs.map runTaskEnd) =
      ((bs.filter orderingRecorded).map TaskBehavior.orderingTime).sum := by
  induction bs with
  | nil => rfl
  | cons b t ih =>
    simp only [chanTotal, chanContents, List.filterMap_map, Function.comp] at ih ⊢
    cases hb : orderingRecorded b <;>
      simp [List.filterMap_cons, List.filter_cons, runTaskEnd_orderingSent, hb, ih]

/-- The commit channel total over a batch of behaviors is the sum of the
commit durations of the fully successful tasks. -/
theorem chanTotal_commit_map (bs : List TaskBehavior) :
    chanTotal TaskOutcome.commitSent (bs.map runTaskEnd) =
      ((bs.filter commitRecorded).map TaskBehavior.commitTime).sum := by
  induction bs with
  | nil => rfl
  | cons b t ih =>
    simp only [chanTotal, chanContents, List.filterMap_map, Function.comp] at ih ⊢
    cases hb : commitRecorded b <;>
      simp [List.filterMap_cons, List.filter_cons, runTaskEnd_commitSent, hb, ih]

/-- The latency channel holds one entry per task that incremented the success
counter. -/
theorem latencyCh_length_eq_countSuccess (bs : List TaskBehavior) :
    (chanContents TaskOutcome.latencySent (bs.map runTaskEnd)).length =
      countSuccess (bs.map runTaskEnd) := by
  induction bs with
  | nil => rfl
  | cons b t ih =>
    simp only [chanContents, countSuccess, List.filterMap_map, Function.comp] at ih ⊢
    cases hb : taskSuccess b <;>
      simp [List.filterMap_cons, List.filter_cons, runTaskEnd_latencySent,
        runTaskEnd_successIncr, hb, ih]

/-- Slot i of the createAssetBench results slice is written by task i alone:
the indexes of the collected slice are exactly 0..n-1 in order. -/
theorem benchResults_indexes (n : Nat) (behav : Nat → BenchTxBehavior) :
    (benchResults n behav).map txResult.index = List.range n := by
  have h : ∀ l : List Nat,
      (l.map (fun i => runBenchTx i (behav i))).map txResult.index = l := by
    intro l
    induction l with
    | nil => rfl
    | cons a t ih =>
      simp only [List.map_cons]
      rw [ih]
      rfl
  exact h (List.range n)

/-! ## Claim C1: zero-success aggregation -/

/-- C1 counterexample: a createAssetBench run whose only transaction failed
has zero successes, yet its aggregation computes meanLatency and the standard
deviation as zero divided by zero, which is NaN, instead of an explicit
no-data result. -/
theorem C1_bench_nan_counterexample :
    benchSuccessCount failedOnlyRun = 0 ∧
    meanLatency failedOnlyRun = GoFloat.nan ∧
    benchStdDevSq failedOnlyRun = GoFloat.nan := by decide

/-- C1 amended: when zero tasks succeed, the aggregation of
createAssetBenchEnd returns the explicit no-successful-transactions report
before any division, while the aggregation of createAssetBench has no
zero-success guard and produces NaN for both meanLatency and the standard
deviation. -/
theorem C1_zero_success_guard_per_variant :
    (∀ outs : List TaskOutcome, countSuccess outs = 0 → aggregateEnd outs = none) ∧
    (∀ rs : List txResult, benchSuccessCount rs = 0 →
      meanLatency rs = GoFloat.nan ∧ benchStdDevSq rs = GoFloat.nan) := by
  constructor
  · intro outs h
    simp [aggregateEnd, h]
  · intro rs h
    have hl : latenciesMs rs = [] := by
      have hlen := latenciesMs_length rs
      rw [h] at hlen
      exact List.length_eq_zero.mp hlen
    have hm : meanLatency rs = GoFloat.nan := by
      simp [meanLatency, totalLatencyMs, hl, goDivF, h]
    exact ⟨hm, by simp [benchStdDevSq, hm]⟩

/-- C1 witness: both parts at concrete zero-success runs. -/
theorem C1_zero_success_guard_per_variant_witness :
    aggregateEnd [runTaskEnd bFailEndorse] = none ∧
    meanLatency failedOnlyRun = GoFloat.nan :=
  ⟨C1_zero_success_guard_per_variant.1 [runTaskEnd bFailEndorse] (by decide),
   (C1_zero_success_guard_per_variant.2 failedOnlyRun (by decide)).1⟩

/-! ## Claim C2: divisor of the per-phase means -/

/-- C2 counterexample: in a two-task run where one task succeeds fully and
the other records an endorse duration of 10 and then fails at Submit, the
aggregation reports an average endorse time of 20 (total 20 divided by the
success count 1), while the per-phase-count mean of the claim is 10 (total 20
divided by the 2 tasks that recorded the phase). -/
theorem C2_phase_mean_counterexample :
    (aggregateEnd [runTaskEnd bAllOk, runTaskEnd bFailSubmit]).map
      EndMetrics.averageEndorseTime = some 20 ∧
    specEndorsePhaseMean [runTaskEnd bAllOk, runTaskEnd bFailSubmit] = 10 ∧
    (aggregateEnd [runTaskEnd bAllOk, runTaskEnd bFailSubmit]).map
      EndMetrics.averageEndorseTime ≠
      some (specEndorsePhaseMean [runTaskEnd bAllOk, runTaskEnd bFailSubmit]) := by
  decide

/-- C2 amended: each of the three per-phase means (endorse, ordering,
commit) is the phase total divided by the overall success count, not by the
count of tasks that recorded the phase: each numerator sums the durations of
every task whose bracket for that phase completed, including tasks that
failed at a later phase, while every divisor counts only the fully
successful tasks. -/
theorem C2_phase_mean_divides_by_success_count (bs : List TaskBehavior)
    (h : countSuccess (bs.map runTaskEnd) ≠ 0) :
    (aggregateEnd (bs.map runTaskEnd)).map EndMetrics.averageEndorseTime =
      some ((((bs.filter endorseRecorded).map TaskBehavior.endorseTime).sum) /
        countSuccess (bs.map runTaskEnd)) ∧
    (aggregateEnd (bs.map runTaskEnd)).map EndMetrics.averageOrderingTime =
      some ((((bs.filter orderingRecorded).map TaskBehavior.orderingTime).sum) /
        countSuccess (bs.map runTaskEnd)) ∧
    (aggregateEnd (bs.map runTaskEnd)).map EndMetrics.averageCommitTime =
      some ((((bs.filter commitRecorded).map TaskBehavior.commitTime).sum) /
        countSuccess (bs.map runTaskEnd)) := by
  rw [aggregateEnd, if_neg h]
  refine ⟨?_, ?_, ?_⟩ <;>
    simp [chanTotal_endorse_map, chanTotal_ordering_map, chanTotal_commit_map]

/-- C2 witness: the amended divisors at a concrete three-task batch with one
full success, one Submit failure and one Status failure, so the endorse and
ordering totals both include durations from tasks the divisor does not
count. -/
theorem C2_phase_mean_divides_by_success_count_witness :
    (aggregateEnd ([bAllOk, bFailSubmit, bStatusBadCode].map runTaskEnd)).map
      EndMetrics.averageEndorseTime =
      some (((([bAllOk, bFailSubmit, bStatusBadCode].filter endorseRecorded).map
        TaskBehavior.endorseTime).sum) /
        countSuccess ([bAllOk, bFailSubmit, bStatusBadCode].map runTaskEnd)) ∧
    (aggregateEnd ([bAllOk, bFailSubmit, bStatusBadCode].map runTaskEnd)).map
      EndMetrics.averageOrderingTime =
      some (((([bAllOk, bFailSubmit, bStatusBadCode].filter orderingRecorded).map
        TaskBehavior.orderingTime).sum) /
        countSuccess ([bAllOk, bFailSubmit, bStatusBadCode].map runTaskEnd)) ∧
    (aggregateEnd ([bAllOk, bFailSubmit, bStatusBadCode].map runTaskEnd)).map
      EndMetrics.averageCommitTime =
      some (((([bAllOk, bFailSubmit, bStatusBadCode].filter commitRecorded).map
        TaskBehavior.commitTime).sum) /
        countSuccess ([bAllOk, bFailSubmit, bStatusBadCode].map runTaskEnd)) :=
  C2_phase_mean_divides_by_success_count [bAllOk, bFailSubmit, bStatusBadCode]
    (by decide)

/-! ## Claim C8: completeness of the result collectors -/

/-- C8 counterexample: in a createAssetBenchEnd run with two tasks of which
one fails at Endorse, the latency channel holds one entry after the join
barrier, not taskCount entries: the failed task delivered no result to the
streaming collector. -/
theorem C8_streaming_loss_counterexample :
    (benchEndOutcomes 2 (fun i => if i = 0 then bAllOk else bFailEndorse)).length = 2 ∧
    (chanContents TaskOutcome.latencySent
      (benchEndOutcomes 2 (fun i => if i = 0 then bAllOk else bFailEndorse))).length = 1 ∧
    (1 : Nat) ≠ 2 := by decide

/-- C8 amended: the indexed-slice collector of createAssetBench holds exactly
taskCount results after the join barrier, one per task index with none lost
or duplicated, for any mix of success and failure; the streaming latency
channel of createAssetBenchEnd instead holds exactly one entry per fully
successful task, so its count is the success count, not taskCount. -/
theorem C8_collector_counts (n : Nat) (behavB : Nat → BenchTxBehavior)
    (bs : List TaskBehavior) :
    (benchResults n behavB).map txResult.index = List.range n ∧
    (benchResults n behavB).length = n ∧
    (chanContents TaskOutcome.latencySent (bs.map runTaskEnd)).length =
      countSuccess (bs.map runTaskEnd) := by
  refine ⟨benchResults_indexes n behavB, ?_, latencyCh_length_eq_countSuccess bs⟩
  simp [benchResults]

/-! ## Claim C10: division by zero in createAssetEndorse -/

/-- When every task in the batch fails, the loop of createAssetEndorse never
increments successfulTransactions. -/
theorem endorseLoopGo_succ_of_all_fail (bs : List TaskBehavior) :
    ∀ acc t : EndorseTotals, (∀ b ∈ bs, taskSuccess b = false) →
      endorseLoopGo bs acc = some t →
      t.successfulTransactions = acc.successfulTransactions := by
  induction bs with
  | nil =>
    intro acc t _ h
    simp only [endorseLoopGo, Option.some.injEq] at h
    rw [← h]
  | cons b rest ih =>
    intro acc t hall h
    simp only [endorseLoopGo] at h
    by_cases hp : b.proposeOk = true
    · rw [if_pos hp] at h
      have hb : taskSuccess b = false := hall b (by simp)
      have hrec := ih _ t (fun x hx => hall x (by simp [hx])) h
      rw [hrec]
      simp [runTaskEnd_successIncr, hb]
    · rw [if_neg hp] at h
      cases h

/-- C10: when zero of the transactions of createAssetEndorse succeed, the
final average computations divide the accumulated totals by the success
count, which is zero, with no guard: the division is zero by zero on
time.Duration values, so the operation does not complete normally. -/
theorem C10_endorse_zero_success_divide_by_zero (bs : List TaskBehavior)
    (t : EndorseTotals) (elapsed : Nat)
    (hall : ∀ b ∈ bs, taskSuccess b = false)
    (h : endorseLoop bs = some t) :
    t.successfulTransactions = 0 ∧
    endorseFinalCalcs t.totalEndorseTime t.totalOrderingTime t.totalCommitTime
      elapsed t.successfulTransactions = none := by
  have h0 := endorseLoopGo_succ_of_all_fail bs _ t hall h
  refine ⟨h0, ?_⟩
  simp [endorseFinalCalcs, h0]

/-- C10 witness: a one-task batch failing at Endorse reaches the final
computations with success count zero, and they do not complete. -/
theorem C10_endorse_zero_success_divide_by_zero_witness :
    ({ totalEndorseTime := 0, totalOrderingTime := 0, totalCommitTime := 0,
       successfulTransactions := 0 } : EndorseTotals).successfulTransactions = 0 ∧
    endorseFinalCalcs 0 0 0 7 0 = none :=
  C10_endorse_zero_success_divide_by_zero [bFailEndorse]
    { totalEndorseTime := 0, totalOrderingTime := 0, totalCommitTime := 0,
      successfulTransactions := 0 } 7 (by decide) (by decide)
